import Mathlib

/-!
Verification of the TicketForge template engine (src/ticketforge.py).

Text is modelled as `List Char`.  The field-extraction loop
(`TemplateEditWindow.get_template_fields` / `TemplateEditor.get_template_fields`)
is a cursor-based `while` loop; it is embedded with an explicit fuel parameter,
and fuel sufficiency is proved separately.  Python `str.find(c, start)` is
embedded as `findFrom`, Python `str.replace(old, new)` as `replaceAll`, and
Python slicing `s[a:b]` as `slice`.
-/

namespace TicketForge

/-- Index of the first occurrence of `c` in `s`, or `none`.
Helper for the embedding of Python `str.find`. -/
def findIdxFrom (c : Char) : List Char → Option Nat
  | [] => none
  | x :: xs => if x = c then some 0 else (findIdxFrom c xs).map (· + 1)

/-- Embedding of Python `str.find(c, start)`: the least index `i ≥ start`
with `s[i] = c`, or `none` (Python returns `-1`). -/
def findFrom (c : Char) (s : List Char) (start : Nat) : Option Nat :=
  (findIdxFrom c (s.drop start)).map (· + start)

/-- Embedding of Python slicing `s[a:b]` (for natural `a`, `b`). -/
def slice (s : List Char) (a b : Nat) : List Char :=
  (s.drop a).take (b - a)

/-- Fuel-indexed embedding of the `while` loop in `get_template_fields`
(src/ticketforge.py lines 196-211 and 492-507): find the next `[` from the
cursor, find the next `]` from that position, record the text strictly
between them, continue one past the `]`.  Returns `none` on fuel
exhaustion; the loop itself always terminates (see the fuel lemmas). -/
def get_template_fieldsAux : Nat → List Char → Nat → Option (List (List Char))
  | 0, _, _ => none
  | fuel + 1, s, start =>
    match findFrom '[' s start with
    | none => some []
    | some i =>
      match findFrom ']' s i with
      | none => some []
      | some j =>
        (get_template_fieldsAux fuel s (j + 1)).map (fun rest => slice s (i + 1) j :: rest)

/-- Embedding of `get_template_fields(template_text)`: extract the bracketed
input fields of a template body, in order, duplicates preserved. -/
def get_template_fields (s : List Char) : List (List Char) :=
  (get_template_fieldsAux (s.length + 2) s 0).getD []

/-- Modelled from the spec's algorithm description, for refinement comparison
with the source embedding: locate the next `[` from the cursor; if found,
locate the next `]` strictly after it; the substring strictly between them is
a field name; the cursor advances past the matched `]`; scanning stops when
either bracket is missing. -/
def extractFieldsSpecAux : Nat → List Char → Nat → Option (List (List Char))
  | 0, _, _ => none
  | fuel + 1, s, cursor =>
    match findFrom '[' s cursor with
    | none => some []
    | some i =>
      match findFrom ']' s (i + 1) with
      | none => some []
      | some j =>
        (extractFieldsSpecAux fuel s (j + 1)).map (fun rest => slice s (i + 1) j :: rest)

/-- Spec-side field extractor (`extractFields` of the spec). -/
def extractFieldsSpec (s : List Char) : List (List Char) :=
  (extractFieldsSpecAux (s.length + 2) s 0).getD []

/-- Fuel-indexed helper for `replaceAll`, scanning `s` left to right and
replacing each (leftmost, non-overlapping) occurrence of `old`. -/
def replaceAux (old new : List Char) : Nat → List Char → List Char
  | 0, s => s
  | fuel + 1, s =>
    match s with
    | [] => []
    | x :: xs =>
      if old.isPrefixOf (x :: xs) then new ++ replaceAux old new fuel ((x :: xs).drop old.length)
      else x :: replaceAux old new fuel xs

/-- Embedding of Python `s.replace(old, new)`: replace every occurrence of
`old` in `s` by `new`, leftmost first, non-overlapping.  (Python's behavior
on an empty `old` — interleaving `new` between all characters — is modelled
explicitly, though the source only ever calls it with a bracketed, hence
nonempty, pattern.) -/
def replaceAll (s old new : List Char) : List Char :=
  if old = [] then new ++ s.foldr (fun c acc => c :: (new ++ acc)) []
  else replaceAux old new (s.length + 1) s

/-- Embedding of the pure text transformation in
`TemplateEditWindow.update_preview` (lines 142-153): for each extracted
field, replace `[field]` by `<field>` in the preview text. -/
def update_preview (s : List Char) : List Char :=
  (get_template_fields s).foldl
    (fun acc f => replaceAll acc ('[' :: (f ++ [']'])) ('<' :: (f ++ ['>']))) s

/-- Embedding of the text placed on the clipboard by
`TemplateEditWindow.copy_to_clipboard` (lines 168-194) when the user accepts
the input dialog: for each extracted field, replace `[field]` by the value
entered for that field.  With no fields the fold is empty and the template
text is copied unchanged, matching the `else` branch. -/
def copy_to_clipboard (s : List Char) (values : List Char → List Char) : List Char :=
  (get_template_fields s).foldl
    (fun acc f => replaceAll acc ('[' :: (f ++ [']'])) (values f)) s

/-!
The Template Store.  The Python data model is a dict of dicts
(`self.data : category name → template name → body`); Python dicts preserve
insertion order and have unique keys, so they are embedded as association
lists where assignment updates an existing key in place or appends a new
one, and `del` removes the key.  The persisted file `data/templates.json`
holds exactly the JSON serialization of the Document (a string→string→string
map, which the `json` module round-trips faithfully), so storage is embedded
as `Option Document` (`none` = file absent).  A failing disk write
(`StorageWriteError`) is modelled by the `writeOk` flag of `save_templates`.
-/

/-- Python dict lookup `d[k]` (as an `Option`). -/
def alookup {α : Type} : List (String × α) → String → Option α
  | [], _ => none
  | (k, v) :: rest, key => if k = key then some v else alookup rest key

/-- Python dict assignment `d[k] = v`: update an existing key in place,
else append. -/
def aset {α : Type} : List (String × α) → String → α → List (String × α)
  | [], key, v => [(key, v)]
  | (k, w) :: rest, key, v =>
    if k = key then (k, v) :: rest else (k, w) :: aset rest key v

/-- Python `del d[k]`. -/
def adel {α : Type} : List (String × α) → String → List (String × α)
  | [], _ => []
  | (k, w) :: rest, key =>
    if k = key then adel rest key else (k, w) :: adel rest key

/-- A category's contents: template name → template body. -/
abbrev TemplateMap := List (String × String)

/-- The Document: category name → category contents (`self.data`). -/
abbrev Document := List (String × TemplateMap)

/-- State of a `TemplateEditor`: the in-memory Document and the content of
`data/templates.json` (`none` when the file is absent). -/
structure Store where
  data : Document
  file : Option Document
deriving DecidableEq

/-- The error outcomes of store operations: `keyError` is a Python
`KeyError` on a missing dict key; `duplicateCategory` / `duplicateTemplate`
are the duplicate-name warnings; `storageWriteError` is a failed disk
write (an `OSError` escaping `save_templates`). -/
inductive StoreError where
  | keyError
  | duplicateCategory
  | duplicateTemplate
  | storageWriteError
deriving DecidableEq

/-- Embedding of `TemplateEditor.save_templates` (lines 326-331): write the
whole in-memory Document to the file.  `writeOk` says whether the disk
write succeeds; on failure the exception propagates and the file is
unchanged. -/
def save_templates (writeOk : Bool) (st : Store) : Store × Option StoreError :=
  if writeOk then ({ st with file := some st.data }, none)
  else (st, some StoreError.storageWriteError)

/-- Embedding of `TemplateEditor.load_templates` (lines 313-324): read the
Document from the file, or initialize with the default "General" category
when the file is absent. -/
def load_templates (st : Store) : Store :=
  match st.file with
  | some d => { st with data := d }
  | none => { st with data := [("General", [])] }

/-- Embedding of `TemplateEditor.update_template` (lines 411-414): set
`data[category][template_name] = new_text`, then save.  Looking up an
absent category raises `KeyError`; note that the in-memory assignment
happens before the save. -/
def update_template (writeOk : Bool) (cat name newText : String) (st : Store) :
    Store × Option StoreError :=
  match alookup st.data cat with
  | none => (st, some StoreError.keyError)
  | some tmpls =>
    save_templates writeOk { st with data := aset st.data cat (aset tmpls name newText) }

/-- Embedding of `TemplateEditor.new_category` (lines 416-425), after the
input dialog returned a non-empty name: warn and stop if the name exists,
else insert an empty category and save. -/
def new_category (writeOk : Bool) (name : String) (st : Store) :
    Store × Option StoreError :=
  if (alookup st.data name).isSome then (st, some StoreError.duplicateCategory)
  else save_templates writeOk { st with data := aset st.data name [] }

/-- The default body given to a freshly created template (lines 460-462). -/
def defaultTemplateText : String :=
  "Enter your template here.\nUse [field_name] for input fields."

/-- Embedding of `TemplateEditor.new_template` (lines 443-471), after the
input dialog returned a non-empty name, with `cat` the current category:
warn and stop if the name exists in the category, else insert the default
body and save. -/
def new_template (writeOk : Bool) (cat name : String) (st : Store) :
    Store × Option StoreError :=
  match alookup st.data cat with
  | none => (st, some StoreError.keyError)
  | some tmpls =>
    if (alookup tmpls name).isSome then (st, some StoreError.duplicateTemplate)
    else save_templates writeOk
      { st with data := aset st.data cat (aset tmpls name defaultTemplateText) }

/-- Embedding of `TemplateEditor.rename_template` (lines 370-385), with
`cat` the current category: when the dialog succeeded with a non-empty
`newName` different from `oldName`, read the old body, delete the old key,
assign the body to the new key, and save; otherwise do nothing.  There is
no duplicate check on `newName`. -/
def rename_template (writeOk : Bool) (cat oldName newName : String) (st : Store) :
    Store × Option StoreError :=
  if newName ≠ "" ∧ newName ≠ oldName then
    match alookup st.data cat with
    | none => (st, some StoreError.keyError)
    | some tmpls =>
      match alookup tmpls oldName with
      | none => (st, some StoreError.keyError)
      | some content =>
        save_templates writeOk
          { st with data := aset st.data cat (aset (adel tmpls oldName) newName content) }
  else (st, none)

/-! Lemmas about `findFrom` (the embedding of Python `str.find`). -/

theorem findIdxFrom_some {c : Char} {s : List Char} {i : Nat}
    (h : findIdxFrom c s = some i) : i < s.length ∧ s[i]? = some c := by
  induction s generalizing i with
  | nil => simp [findIdxFrom] at h
  | cons x xs ih =>
    by_cases hx : x = c
    · simp [findIdxFrom, hx] at h
      subst h
      simp [hx]
    · simp only [findIdxFrom, hx, if_false, Option.map_eq_some'] at h
      obtain ⟨k, hk, rfl⟩ := h
      obtain ⟨h1, h2⟩ := ih hk
      refine ⟨by simpa using h1, ?_⟩
      simpa using h2

theorem findFrom_some {c : Char} {s : List Char} {start i : Nat}
    (h : findFrom c s start = some i) :
    start ≤ i ∧ i < s.length ∧ s[i]? = some c := by
  rw [findFrom, Option.map_eq_some'] at h
  obtain ⟨k, hk, rfl⟩ := h
  obtain ⟨h1, h2⟩ := findIdxFrom_some hk
  rw [List.length_drop] at h1
  rw [List.getElem?_drop] at h2
  refine ⟨Nat.le_add_left .., by omega, ?_⟩
  rwa [Nat.add_comm] at h2

theorem findIdxFrom_eq_none {c : Char} {s : List Char} (h : c ∉ s) :
    findIdxFrom c s = none := by
  induction s with
  | nil => rfl
  | cons x xs ih =>
    simp only [List.mem_cons, not_or] at h
    have hx : ¬ x = c := fun hh => h.1 hh.symm
    simp [findIdxFrom, hx, ih h.2]

/-- Searching from the position of a character that is not `c` is the same
as searching from one position further right.  This is why the source's
`find(']', start)` — starting at the `[` itself — finds the first `]`
strictly after the `[`, as the spec words it. -/
theorem findFrom_skip {c : Char} {s : List Char} {start : Nat}
    (h : s[start]? ≠ some c) : findFrom c s start = findFrom c s (start + 1) := by
  unfold findFrom
  by_cases hlt : start < s.length
  · rw [List.drop_eq_getElem_cons hlt]
    have hx : ¬ s[start] = c := by
      intro hc
      exact h (by rw [List.getElem?_eq_getElem hlt, hc])
    simp only [findIdxFrom, hx, if_false, Option.map_map]
    congr 1
    funext k
    simp only [Function.comp_apply]
    omega
  · rw [List.drop_eq_nil_of_le (by omega), List.drop_eq_nil_of_le (by omega)]
    simp [findIdxFrom]

/-! Fuel lemmas: the extraction loop terminates — `s.length + 2` fuel always
suffices, and the result does not depend on the fuel beyond that. -/

theorem get_template_fieldsAux_isSome :
    ∀ (fuel : Nat) (s : List Char) (start : Nat),
      s.length + 1 - start < fuel → (get_template_fieldsAux fuel s start).isSome := by
  intro fuel
  induction fuel with
  | zero => intro s start h; omega
  | succ n ih =>
    intro s start h
    simp only [get_template_fieldsAux]
    cases hi : findFrom '[' s start with
    | none => rfl
    | some i =>
      simp only [hi]
      cases hj : findFrom ']' s i with
      | none => rfl
      | some j =>
        simp only [hj]
        obtain ⟨hi1, hi2, -⟩ := findFrom_some hi
        obtain ⟨hj1, hj2, -⟩ := findFrom_some hj
        have hrec := ih s (j + 1) (by omega)
        simpa using hrec

theorem get_template_fieldsAux_fuel_irrel :
    ∀ (f₁ f₂ : Nat) (s : List Char) (start : Nat),
      s.length + 1 - start < f₁ → s.length + 1 - start < f₂ →
      get_template_fieldsAux f₁ s start = get_template_fieldsAux f₂ s start := by
  intro f₁
  induction f₁ with
  | zero => intro f₂ s start h1 h2; omega
  | succ n ih =>
    intro f₂ s start h1 h2
    cases f₂ with
    | zero => omega
    | succ m =>
      simp only [get_template_fieldsAux]
      cases hi : findFrom '[' s start with
      | none => rfl
      | some i =>
        simp only [hi]
        cases hj : findFrom ']' s i with
        | none => rfl
        | some j =>
          simp only [hj]
          obtain ⟨hi1, hi2, -⟩ := findFrom_some hi
          obtain ⟨hj1, hj2, -⟩ := findFrom_some hj
          rw [ih m s (j + 1) (by omega) (by omega)]

theorem get_template_fields_eq_aux {s : List Char} {fuel : Nat}
    (h : s.length + 2 ≤ fuel) :
    get_template_fieldsAux fuel s 0 = some (get_template_fields s) := by
  have hs := get_template_fieldsAux_isSome (s.length + 2) s 0 (by omega)
  obtain ⟨r, hr⟩ := Option.isSome_iff_exists.mp hs
  have heq := get_template_fieldsAux_fuel_irrel fuel (s.length + 2) s 0 (by omega) (by omega)
  rw [heq, hr, get_template_fields, hr]
  rfl

/-! The source scan agrees with the spec's description of the algorithm. -/

theorem get_template_fieldsAux_eq_spec :
    ∀ (fuel : Nat) (s : List Char) (start : Nat),
      get_template_fieldsAux fuel s start = extractFieldsSpecAux fuel s start := by
  intro fuel
  induction fuel with
  | zero => intro s start; rfl
  | succ n ih =>
    intro s start
    simp only [get_template_fieldsAux, extractFieldsSpecAux]
    cases hi : findFrom '[' s start with
    | none => rfl
    | some i =>
      simp only [hi]
      have hchar : s[i]? = some '[' := (findFrom_some hi).2.2
      have hskip : findFrom ']' s i = findFrom ']' s (i + 1) :=
        findFrom_skip (by rw [hchar]; simp)
      rw [hskip]
      cases hj : findFrom ']' s (i + 1) with
      | none => rfl
      | some j =>
        simp only [hj]
        rw [ih]

theorem extractFields_eq_spec (s : List Char) :
    get_template_fields s = extractFieldsSpec s := by
  rw [get_template_fields, extractFieldsSpec, get_template_fieldsAux_eq_spec]

/-! A text without `[` yields no fields, so the preview pass leaves it
unchanged. -/

theorem get_template_fields_eq_nil_of_no_bracket {s : List Char} (h : '[' ∉ s) :
    get_template_fields s = [] := by
  have hfind : findFrom '[' s 0 = none := by
    rw [findFrom, List.drop_zero, findIdxFrom_eq_none h]
    rfl
  rw [get_template_fields, show s.length + 2 = (s.length + 1) + 1 from rfl]
  simp [get_template_fieldsAux, hfind]

theorem update_preview_eq_self_of_no_bracket {s : List Char} (h : '[' ∉ s) :
    update_preview s = s := by
  rw [update_preview, get_template_fields_eq_nil_of_no_bracket h]
  rfl

/-! Lemmas about the dict embedding (`alookup`, `aset`, `adel`). -/

theorem alookup_aset_self {α : Type} (l : List (String × α)) (k : String) (v : α) :
    alookup (aset l k v) k = some v := by
  induction l with
  | nil => simp [aset, alookup]
  | cons p rest ih =>
    obtain ⟨k1, v1⟩ := p
    by_cases h : k1 = k
    · simp [aset, alookup, h]
    · simp [aset, alookup, h, ih]

theorem alookup_aset_ne {α : Type} (l : List (String × α)) (k k' : String) (v : α)
    (h : k' ≠ k) : alookup (aset l k v) k' = alookup l k' := by
  induction l with
  | nil => simp [aset, alookup, Ne.symm h]
  | cons p rest ih =>
    obtain ⟨k1, v1⟩ := p
    by_cases h1 : k1 = k
    · subst h1
      simp [aset, alookup, Ne.symm h]
    · by_cases h2 : k1 = k' <;> simp [aset, alookup, h, h1, h2, ih]

theorem alookup_adel_self {α : Type} (l : List (String × α)) (k : String) :
    alookup (adel l k) k = none := by
  induction l with
  | nil => rfl
  | cons p rest ih =>
    obtain ⟨k1, v1⟩ := p
    by_cases h : k1 = k
    · simp [adel, h, ih]
    · simp [adel, alookup, h, ih]

theorem alookup_adel_ne {α : Type} (l : List (String × α)) (k k' : String)
    (h : k' ≠ k) : alookup (adel l k) k' = alookup l k' := by
  induction l with
  | nil => rfl
  | cons p rest ih =>
    obtain ⟨k1, v1⟩ := p
    by_cases h1 : k1 = k
    · subst h1
      simp [adel, alookup, Ne.symm h, ih]
    · by_cases h2 : k1 = k' <;> simp [adel, alookup, h, h1, h2, ih]

theorem aset_eq_append {α : Type} (l : List (String × α)) (k : String) (v : α)
    (h : alookup l k = none) : aset l k v = l ++ [(k, v)] := by
  induction l with
  | nil => rfl
  | cons p rest ih =>
    obtain ⟨k1, v1⟩ := p
    by_cases h1 : k1 = k
    · simp [alookup, h1] at h
    · simp only [alookup, h1, if_false] at h
      simp [aset, h1, ih h]

example : get_template_fields "Hello [name], welcome to [place].".toList
    = ["name".toList, "place".toList] := by decide
example : get_template_fields "[a[b]c]".toList = ["a[b".toList] := by decide
example : get_template_fields "unterminated [field".toList = [] := by decide
example : get_template_fields "[a][a]".toList = ["a".toList, "a".toList] := by decide
example : update_preview "Hi [name]!".toList = "Hi <name>!".toList := by decide
example : update_preview "[a[b]c]".toList = "<a[b>c]".toList := by decide
example : update_preview (update_preview "[a[b]c]".toList) = "<a<b>c>".toList := by decide

/-! Spec-side renderers, written from the spec's words, for refinement
comparison with the source embeddings. -/

/-- Modelled from the spec: for each field name in the sequence produced by
the Field Extractor (not deduplicated), replace every literal occurrence of
`[field_name]` with the corresponding fill value. -/
def renderFilledSpec (s : List Char) (values : List Char → List Char) : List Char :=
  (extractFieldsSpec s).foldl
    (fun acc f => replaceAll acc ('[' :: (f ++ [']'])) (values f)) s

/-- Modelled from the spec: the preview-only rendering mode replaces
`[field_name]` with `<field_name>` for each extracted field. -/
def renderPreviewSpec (s : List Char) : List Char :=
  (extractFieldsSpec s).foldl
    (fun acc f => replaceAll acc ('[' :: (f ++ [']'])) ('<' :: (f ++ ['>']))) s

/-! Concrete stores used in counterexamples and witnesses. -/

/-- A store with one category holding two templates. -/
def stTwo : Store :=
  { data := [("General", [("A", "bodyA"), ("B", "bodyB")])], file := none }

/-- A store whose file agrees with memory, holding one template. -/
def stSynced : Store :=
  { data := [("General", [("T", "old")])], file := some [("General", [("T", "old")])] }

/-- A store with one empty category, synced with its file. -/
def stEmptyCat : Store :=
  { data := [("General", [])], file := some [("General", [])] }

/-! The claims. -/

/-- C1: `get_template_fields` scans left to right pairing each `[` with the
first `]` after it, returning the substrings strictly between the brackets
in order of appearance with duplicates preserved, and stops at a `[` with no
subsequent `]` — this scan is `extractFieldsSpec`, written from the spec's
algorithm; in particular the first `[` pairs with the first `]` even across
nested brackets (`"[a[b]c]"` yields `["a[b"]`) and
`"unterminated [field"` yields `[]`. -/
theorem extractFields_matches_spec :
    (∀ s : List Char, get_template_fields s = extractFieldsSpec s) ∧
    get_template_fields "[a[b]c]".toList = ["a[b".toList] ∧
    get_template_fields "unterminated [field".toList = [] :=
  ⟨extractFields_eq_spec, by decide, by decide⟩

/-- C2: the filled rendering of `copy_to_clipboard` processes the field
names in the order the extractor returns them (duplicates included),
replacing every literal occurrence of `[field_name]` with that field's
value — the spec-side `renderFilledSpec` — and
`renderFilled "Hi [name]!" {name ↦ "Ada"} = "Hi Ada!"`. -/
theorem renderFilled_matches_spec :
    (∀ (s : List Char) (values : List Char → List Char),
      copy_to_clipboard s values = renderFilledSpec s values) ∧
    copy_to_clipboard "Hi [name]!".toList
      (fun f => if f = "name".toList then "Ada".toList else []) = "Hi Ada!".toList :=
  ⟨fun s values => by
      rw [copy_to_clipboard, renderFilledSpec, extractFields_eq_spec],
   by decide⟩

/-- C3 counterexample: renaming template "A" to the already-existing name
"B" does not fail with `DuplicateTemplate`; it silently overwrites "B" with
"A"'s body (and persists), refuting the claim as stated. -/
theorem rename_overwrites_counterexample :
    (rename_template true "General" "A" "B" stTwo).snd ≠ some StoreError.duplicateTemplate ∧
    rename_template true "General" "A" "B" stTwo =
      ({ data := [("General", [("B", "bodyA")])],
         file := some [("General", [("B", "bodyA")])] }, none) := by
  constructor
  · decide
  · decide

/-- C3 (amended): with `oldName` present and `newName` a non-empty name
different from `oldName`, `rename_template` never fails with
`DuplicateTemplate`: it always moves the body unchanged from `oldName` to
`newName` — silently overwriting any existing template under `newName` —
and persists the Document. -/
theorem rename_template_spec (cat oldName newName : String) (tmpls : TemplateMap)
    (body : String) (st : Store)
    (hcat : alookup st.data cat = some tmpls)
    (hold : alookup tmpls oldName = some body)
    (hne : newName ≠ "") (hneq : newName ≠ oldName) :
    ∃ st', rename_template true cat oldName newName st = (st', none) ∧
      alookup st'.data cat = some (aset (adel tmpls oldName) newName body) ∧
      alookup (aset (adel tmpls oldName) newName body) newName = some body ∧
      alookup (aset (adel tmpls oldName) newName body) oldName = none ∧
      (∀ c, c ≠ cat → alookup st'.data c = alookup st.data c) ∧
      st'.file = some st'.data := by
  refine ⟨{ st with
            data := aset st.data cat (aset (adel tmpls oldName) newName body),
            file := some (aset st.data cat (aset (adel tmpls oldName) newName body)) },
          ?_, alookup_aset_self _ _ _, alookup_aset_self _ _ _, ?_, ?_, rfl⟩
  · simp [rename_template, hne, hneq, hcat, hold, save_templates]
  · rw [alookup_aset_ne _ _ _ _ (Ne.symm hneq)]
    exact alookup_adel_self _ _
  · intro c hc
    exact alookup_aset_ne _ _ _ _ hc

/-- Witness for `rename_template_spec` at a concrete store. -/
theorem rename_template_spec_witness :
    ∃ st', rename_template true "General" "A" "C" stTwo = (st', none) ∧
      alookup st'.data "General"
          = some (aset (adel [("A", "bodyA"), ("B", "bodyB")] "A") "C" "bodyA") ∧
      alookup (aset (adel [("A", "bodyA"), ("B", "bodyB")] "A") "C" "bodyA") "C"
          = some "bodyA" ∧
      alookup (aset (adel [("A", "bodyA"), ("B", "bodyB")] "A") "C" "bodyA") "A" = none ∧
      (∀ c, c ≠ "General" → alookup st'.data c = alookup stTwo.data c) ∧
      st'.file = some st'.data :=
  rename_template_spec "General" "A" "C" [("A", "bodyA"), ("B", "bodyB")] "bodyA" stTwo
    (by decide) (by decide) (by decide) (by decide)

/-- C4 counterexample: updating a template name absent from an existing
category does not fail with `NotFound`; it creates the template and
persists, refuting the claim as stated. -/
theorem update_creates_counterexample :
    (update_template true "General" "T" "hello" stEmptyCat).snd ≠ some StoreError.keyError ∧
    (update_template true "General" "T" "hello" stEmptyCat).fst.data ≠ stEmptyCat.data ∧
    update_template true "General" "T" "hello" stEmptyCat =
      ({ data := [("General", [("T", "hello")])],
         file := some [("General", [("T", "hello")])] }, none) := by
  refine ⟨by decide, by decide, by decide⟩

/-- C4 (amended): `update_template` fails (with a `KeyError`) only when the
category is absent, leaving the store unchanged; when the category exists it
sets the template's body to the new text — creating the template if the name
was absent rather than failing — persists, and changes nothing else in the
Document. -/
theorem update_template_spec (cat name newBody : String) (st : Store) :
    (alookup st.data cat = none →
      update_template true cat name newBody st = (st, some StoreError.keyError)) ∧
    (∀ tmpls, alookup st.data cat = some tmpls →
      ∃ st', update_template true cat name newBody st = (st', none) ∧
        alookup st'.data cat = some (aset tmpls name newBody) ∧
        alookup (aset tmpls name newBody) name = some newBody ∧
        (∀ n, n ≠ name → alookup (aset tmpls name newBody) n = alookup tmpls n) ∧
        (∀ c, c ≠ cat → alookup st'.data c = alookup st.data c) ∧
        st'.file = some st'.data) := by
  constructor
  · intro habs
    simp [update_template, habs]
  · intro tmpls hcat
    refine ⟨{ st with
              data := aset st.data cat (aset tmpls name newBody),
              file := some (aset st.data cat (aset tmpls name newBody)) },
            ?_, alookup_aset_self _ _ _, alookup_aset_self _ _ _, ?_, ?_, rfl⟩
    · simp [update_template, hcat, save_templates]
    · intro n hn
      exact alookup_aset_ne _ _ _ _ hn
    · intro c hc
      exact alookup_aset_ne _ _ _ _ hc

/-- Witness for `update_template_spec` at a concrete store. -/
theorem update_template_spec_witness :
    (alookup stTwo.data "Missing" = none →
      update_template true "Missing" "T" "x" stTwo = (stTwo, some StoreError.keyError)) ∧
    update_template true "Missing" "T" "x" stTwo = (stTwo, some StoreError.keyError) :=
  ⟨(update_template_spec "Missing" "T" "x" stTwo).1,
   (update_template_spec "Missing" "T" "x" stTwo).1 (by decide)⟩

/-- C5 counterexample: a failed persistence write during `update_template`
leaves the in-memory Document holding the mutation while the file keeps the
old state — the in-memory Document does not equal the last successfully
persisted state, refuting the claim as stated. -/
theorem write_failure_counterexample :
    (update_template false "General" "T" "new" stSynced).snd
        = some StoreError.storageWriteError ∧
    (update_template false "General" "T" "new" stSynced).fst.file
        = some [("General", [("T", "old")])] ∧
    (update_template false "General" "T" "new" stSynced).fst.data
        = [("General", [("T", "new")])] ∧
    (update_template false "General" "T" "new" stSynced).fst.data
        ≠ [("General", [("T", "old")])] := by
  refine ⟨by decide, by decide, by decide, by decide⟩

/-- C5 (amended): mutations rejected by a precondition check (duplicate
category or template name) leave the store completely unchanged, but a
failed persistence write does not: the in-memory Document keeps the full
mutation while the file keeps the prior state, so the two diverge. -/
theorem store_mutation_error_spec :
    (∀ (writeOk : Bool) (name : String) (st : Store), alookup st.data name ≠ none →
      new_category writeOk name st = (st, some StoreError.duplicateCategory)) ∧
    (∀ (writeOk : Bool) (cat name : String) (st : Store) (tmpls : TemplateMap),
      alookup st.data cat = some tmpls → alookup tmpls name ≠ none →
      new_template writeOk cat name st = (st, some StoreError.duplicateTemplate)) ∧
    (∀ (cat name newText : String) (st : Store) (tmpls : TemplateMap),
      alookup st.data cat = some tmpls →
      (update_template false cat name newText st).fst.data
          = aset st.data cat (aset tmpls name newText) ∧
      (update_template false cat name newText st).fst.file = st.file ∧
      (update_template false cat name newText st).snd
          = some StoreError.storageWriteError) := by
  refine ⟨?_, ?_, ?_⟩
  · intro writeOk name st h
    simp [new_category, Option.ne_none_iff_isSome.mp h]
  · intro writeOk cat name st tmpls hcat h
    simp [new_template, hcat, Option.ne_none_iff_isSome.mp h]
  · intro cat name newText st tmpls hcat
    refine ⟨?_, ?_, ?_⟩ <;> simp [update_template, hcat, save_templates]

/-- Witness for `store_mutation_error_spec` at concrete stores. -/
theorem store_mutation_error_spec_witness :
    new_category true "General" stEmptyCat
        = (stEmptyCat, some StoreError.duplicateCategory) ∧
    new_template true "General" "T" stSynced
        = (stSynced, some StoreError.duplicateTemplate) ∧
    (update_template false "General" "T" "new" stSynced).fst.data
        = aset stSynced.data "General" (aset [("T", "old")] "T" "new") :=
  ⟨store_mutation_error_spec.1 true "General" stEmptyCat (by decide),
   store_mutation_error_spec.2.1 true "General" "T" stSynced [("T", "old")]
     (by decide) (by decide),
   (store_mutation_error_spec.2.2 "General" "T" "new" stSynced [("T", "old")]
     (by decide)).1⟩

/-- C6 counterexample: `update_preview` applied twice to `"[a[b]c]"` is not
a no-op — the first pass yields `"<a[b>c]"`, which still contains a matched
bracket pair, and the second pass rewrites it to `"<a<b>c>"` — refuting
idempotence for every input. -/
theorem preview_not_idempotent :
    update_preview (update_preview "[a[b]c]".toList)
      ≠ update_preview "[a[b]c]".toList := by
  decide

/-- C6 (amended): a second `update_preview` pass is a no-op whenever the
first pass's output contains no `[` character (as for ordinary bodies such
as `"Hi [name]!"`); it is not a no-op for every input string. -/
theorem preview_second_pass_noop (s : List Char) (h : '[' ∉ update_preview s) :
    update_preview (update_preview s) = update_preview s :=
  update_preview_eq_self_of_no_bracket h

/-- Witness for `preview_second_pass_noop` at a concrete input. -/
theorem preview_second_pass_noop_witness :
    '[' ∉ update_preview "Hi [name]!".toList ∧
    update_preview (update_preview "Hi [name]!".toList)
        = update_preview "Hi [name]!".toList :=
  ⟨by decide, preview_second_pass_noop _ (by decide)⟩

/-- C7: `new_category` fails with `DuplicateCategory` and leaves the store
completely unchanged when the name is already present; otherwise, for a
non-empty absent name, it appends an empty category under that name and
persists the Document. -/
theorem new_category_spec (writeOk : Bool) (name : String) (st : Store)
    (hname : name ≠ "") :
    (alookup st.data name ≠ none →
      new_category writeOk name st = (st, some StoreError.duplicateCategory)) ∧
    (alookup st.data name = none →
      new_category true name st =
        ({ data := st.data ++ [(name, [])],
           file := some (st.data ++ [(name, [])]) }, none)) := by
  constructor
  · intro hdup
    simp [new_category, Option.ne_none_iff_isSome.mp hdup]
  · intro habs
    simp [new_category, habs, save_templates, aset_eq_append st.data name [] habs]

/-- Witness for `new_category_spec` at concrete stores. -/
theorem new_category_spec_witness :
    new_category true "General" stEmptyCat
        = (stEmptyCat, some StoreError.duplicateCategory) ∧
    new_category true "Work" stEmptyCat =
      ({ data := stEmptyCat.data ++ [("Work", [])],
         file := some (stEmptyCat.data ++ [("Work", [])]) }, none) :=
  ⟨(new_category_spec true "General" stEmptyCat (by decide)).1 (by decide),
   (new_category_spec true "Work" stEmptyCat (by decide)).2 (by decide)⟩

/-- C8: saving a Document and loading it back yields a structurally equal
Document, for every Document and every prior file state.  (The JSON layer is
embedded as faithful storage of the string→string→string mapping, which the
`json` module round-trips exactly.) -/
theorem save_load_roundtrip (d : Document) (file0 : Option Document) :
    (load_templates (save_templates true { data := d, file := file0 }).fst).data = d := by
  simp [save_templates, load_templates]

/-- C9: `update_preview` replaces each occurrence of `[field_name]`, for
each field name extracted from the body, with `<field_name>` — the
spec-side `renderPreviewSpec` — and
`renderPreview "Hi [name]!" = "Hi <name>!"`. -/
theorem renderPreview_matches_spec :
    (∀ s : List Char, update_preview s = renderPreviewSpec s) ∧
    update_preview "Hi [name]!".toList = "Hi <name>!".toList :=
  ⟨fun s => by rw [update_preview, renderPreviewSpec, extractFields_eq_spec],
   by decide⟩

/-- C10: the field-extraction scan terminates on every input string: any
fuel of at least `s.length + 2` iterations is enough for the loop to exit,
and the result is the value of the total function `get_template_fields`. -/
theorem extraction_terminates (s : List Char) (fuel : Nat)
    (h : s.length + 2 ≤ fuel) :
    get_template_fieldsAux fuel s 0 = some (get_template_fields s) :=
  get_template_fields_eq_aux h

/-- Witness for `extraction_terminates` at a concrete input. -/
theorem extraction_terminates_witness :
    "ab[c]d".toList.length + 2 ≤ 10 ∧
    get_template_fieldsAux 10 "ab[c]d".toList 0
        = some (get_template_fields "ab[c]d".toList) :=
  ⟨by decide, extraction_terminates "ab[c]d".toList 10 (by decide)⟩

end TicketForge
